import Mathlib

/-!
Verification of the CHIRP radtel_rt880 driver configuration together with the
shared clone-mode programming engine it parameterizes.

The repository file src/chirp/drivers/radtel_rt880.py contains only per-model
configuration (identification strings, channel count, power levels, bands,
feature flags) for the classes RT880 and iRadioUV98; the engine itself
(the RT900BT base class, chirp_common) is not part of the visible source, so
the engine operations below are modelled from the specification while all
configuration values are transcribed from the source file.
-/

set_option autoImplicit false

/-- Error taxonomy of the engine (spec section 7): ConnectionError,
TimeoutError, IdentificationError, IntegrityError, RangeError,
ValidationError. -/
inductive EngineError where
  | connectionError : EngineError
  | timeoutError : EngineError
  | identificationError : EngineError
  | integrityError : EngineError
  | rangeError : EngineError
  | validationError : EngineError
deriving DecidableEq, Repr

/-- Handshake state machine states (spec section 3): Idle, MagicSent,
AwaitingFingerprint1, Authenticated1, AwaitingFingerprint2, Authenticated2,
Failed (with the error that caused the failure). -/
inductive HandshakeState where
  | Idle : HandshakeState
  | MagicSent : HandshakeState
  | AwaitingFingerprint1 : HandshakeState
  | Authenticated1 : HandshakeState
  | AwaitingFingerprint2 : HandshakeState
  | Authenticated2 : HandshakeState
  | Failed : EngineError → HandshakeState
deriving DecidableEq, Repr

/-- User-facing prompt strings returned by get_prompts in the source. -/
structure RadioPrompts where
  experimental : String
  pre_download : String
  pre_upload : String
deriving DecidableEq, Repr

/-- ParameterSet (spec section 3): the per-model configuration supplied to the
engine. Field names follow the Python class attributes of RT880. Bytes are
modelled as Nat below 256; watts values 8.00 / 4.00 / 1.00 are exact small
integers and are modelled as Nat. -/
structure ParameterSet where
  VENDOR : String
  MODEL : String
  _upper : Nat
  _mem_params : List Nat
  _magic : List Nat
  _fingerprint : List (List Nat)
  _fingerprint2 : List (List Nat)
  POWER_LEVELS : List (String × Nat)
  VALID_BANDS : List (Nat × Nat)
  _has_bt_denoise : Bool
  _has_am_per_channel : Bool
  _has_am_switch : Bool
  _has_single_mode : Bool
  prompts : RadioPrompts
deriving DecidableEq, Repr

/-- Bytes of a Python byte-string literal made of ASCII characters. -/
def strBytes (s : String) : List Nat :=
  s.toList.map Char.toNat

/-- The prompts built by RT880.get_prompts in the source (lines 115-142). -/
def RT880prompts : RadioPrompts where
  experimental :=
    "This driver is experimental for the Radtel RT-880 " ++
    "(also known as iRadio UV-98).\n" ++
    "\n" ++
    "Please save an unedited copy of your first successful\n" ++
    "download to a CHIRP Radio Images(*.img) file.\n\n" ++
    "PROCEED AT YOUR OWN RISK!"
  pre_download :=
    "1. Turn radio off.\n" ++
    "2. Connect cable to mic/spkr connector.\n" ++
    "3. Make sure connector is firmly connected.\n" ++
    "4. Turn radio on (volume may need to be set at 100%).\n" ++
    "5. Ensure that the radio is tuned to channel with no activity.\n" ++
    "6. Click OK to download image from device."
  pre_upload :=
    "1. Turn radio off.\n" ++
    "2. Connect cable to mic/spkr connector.\n" ++
    "3. Make sure connector is firmly connected.\n" ++
    "4. Turn radio on (volume may need to be set at 100%).\n" ++
    "5. Ensure that the radio is tuned to channel with no activity.\n" ++
    "6. Click OK to upload image to device."

/-- Configuration of the RT880 class (source lines 59-142): vendor Radtel,
model RT-880, 999 channels, magic PROGRAMBT80U, the RT-900 fingerprints,
8W/4W/1W power levels, one valid band 18 MHz - 1 GHz, and the feature
flags, where _has_am_switch is written as not _has_am_per_channel. -/
def RT880 : ParameterSet where
  VENDOR := "Radtel"
  MODEL := "RT-880"
  _upper := 999
  _mem_params := [999]
  _magic := strBytes "PROGRAMBT80U"
  _fingerprint := [[0x01, 0x36, 0x01, 0x80, 0x04, 0x00, 0x05, 0x20]]
  _fingerprint2 := [[0x02, 0x00, 0x02, 0x60, 0x01, 0x03, 0x30, 0x04]]
  POWER_LEVELS := [("High", 8), ("Middle", 4), ("Low", 1)]
  VALID_BANDS := [(18000000, 1000000000)]
  _has_bt_denoise := true
  _has_am_per_channel := true
  _has_am_switch := !true
  _has_single_mode := true
  prompts := RT880prompts

/-- Configuration of the iRadioUV98 class (source lines 145-153): inherits
everything from RT880, overriding only VENDOR and MODEL. -/
def iRadioUV98 : ParameterSet :=
  { RT880 with VENDOR := "iRadio", MODEL := "UV-98" }

/-- Modelled from the spec: ChannelRecord (spec section 3, design note on the
blank-channel sentinel) as a tagged variant, Empty for blank memory or
Populated with receive frequency (Hz), mode, power-level index, reserved
bits of the mode byte, tone settings and a flags byte. The concrete record
layout lives in the unseen RT900BT engine. -/
inductive ChannelRecord where
  | Empty : ChannelRecord
  | Populated (rxfreq mode power rsvd tone flags : Nat) : ChannelRecord
deriving DecidableEq, Repr

/-- Modelled from the spec: the blank-memory sentinel byte pattern of the
unseen engine; every byte of a blank record equals this sentinel. -/
def blankByte : Nat := 0xFF

/-- A slice is blank when every byte equals the blank sentinel. -/
def isBlank (bs : List Nat) : Bool :=
  bs.all (fun b => b == blankByte)

/-- Modelled from the spec: record width of the channel range, 8 bytes per
channel record (spec end-to-end example); the value lives in the unseen
engine's memory-range table. -/
def recordWidth : Nat := 8

/-- Modelled from the spec: base offset 0x1000 of the channel range (spec
end-to-end example); the value lives in the unseen engine's memory-range
table. -/
def channelBase : Nat := 0x1000

/-- Modelled from the spec: byte offset of a channel record, index times
record width plus the base offset of the channel range (spec section 4.4). -/
def channelOffset (index : Nat) : Nat :=
  index * recordWidth + channelBase

/-- Modelled from the spec: the bytes ChannelCodec reads for a channel, the
recordWidth-byte slice of the image starting at channelOffset. -/
def readSlice (img : List Nat) (index : Nat) : List Nat :=
  (img.drop (channelOffset index)).take recordWidth

/-- Modelled from the spec: ChannelCodec field unpacking of one fixed-width
slice (spec section 4.4): a blank slice decodes to Empty; otherwise the
frequency is a little-endian scaled integer in bytes 0-3, the mode and power
enumerations and reserved bits are sub-byte fields of byte 4, the tone
settings occupy bytes 5-6 and byte 7 is the flags byte. The concrete bit
layout lives in the unseen RT900BT engine. -/
def ChannelCodec.decodeSlice (bs : List Nat) : Option ChannelRecord :=
  match bs with
  | [b0, b1, b2, b3, b4, b5, b6, b7] =>
    if isBlank [b0, b1, b2, b3, b4, b5, b6, b7] then
      some ChannelRecord.Empty
    else
      some (ChannelRecord.Populated
        (b0 + 256 * b1 + 65536 * b2 + 16777216 * b3)
        (b4 % 4) (b4 / 4 % 4) (b4 / 16)
        (b5 + 256 * b6) b7)
  | _ => none

/-- Modelled from the spec: ChannelCodec serialization, the inverse of
decodeSlice, writing exactly recordWidth bytes and preserving reserved bits
(spec section 4.4). -/
def ChannelCodec.encodeRecord : ChannelRecord → List Nat
  | ChannelRecord.Empty => List.replicate recordWidth blankByte
  | ChannelRecord.Populated f m pw rs t fl =>
    [f % 256, f / 256 % 256, f / 65536 % 256, f / 16777216 % 256,
     m % 4 + 4 * (pw % 4) + 16 * (rs % 16), t % 256, t / 256 % 256, fl % 256]

/-- Frequency lies inside some configured valid band (inclusive bounds). -/
def inSomeBand (bands : List (Nat × Nat)) (f : Nat) : Bool :=
  bands.any (fun b => decide (b.1 ≤ f ∧ f ≤ b.2))

/-- Modelled from the spec: the mode-enumeration value that selects AM; AM
availability is gated by the per-channel-AM feature flag (spec section 4.5).
The concrete enumeration lives in the unseen engine. -/
def amMode : Nat := 2

/-- Modelled from the spec: ConfigurationValidator (spec section 4.5): a
record is encodable when its frequency falls within a valid band, its power
level index exists in POWER_LEVELS, and AM mode is only selected when the
per-channel-AM feature flag is set. An Empty record is always encodable. -/
def recordValid (p : ParameterSet) : ChannelRecord → Bool
  | ChannelRecord.Empty => true
  | ChannelRecord.Populated f m pw _rs _t _fl =>
    inSomeBand p.VALID_BANDS f &&
    decide (pw < p.POWER_LEVELS.length) &&
    (!(m == amMode) || p._has_am_per_channel)

/-- Modelled from the spec: permissive read of a decoded frequency (spec
section 4.5): the value is reported as-is, together with a warning flag that
is set exactly when the frequency lies outside all configured valid bands. -/
def decodeFreq (p : ParameterSet) (f : Nat) : Nat × Bool :=
  (f, !inSomeBand p.VALID_BANDS f)

/-- Modelled from the spec: ChannelCodec.encode (spec section 4.4): an
out-of-range channel index fails with RangeError (exclusive upper bound), a
record the validator rejects fails with ValidationError before any byte is
produced, and otherwise the record serializes to its slice. -/
def ChannelCodec.encode (p : ParameterSet) (index : Nat) (r : ChannelRecord) :
    Except EngineError (List Nat) :=
  if index < p._upper then
    if recordValid p r then
      Except.ok (ChannelCodec.encodeRecord r)
    else
      Except.error EngineError.validationError
  else
    Except.error EngineError.rangeError

/-- Modelled from the spec: ChannelCodec.decode (spec section 4.4): locate the
record slice at channelOffset, then unpack it; an out-of-range index or a
truncated image fails with RangeError. -/
def ChannelCodec.decode (p : ParameterSet) (img : List Nat) (index : Nat) :
    Except EngineError ChannelRecord :=
  if index < p._upper then
    match ChannelCodec.decodeSlice (readSlice img index) with
    | some r => Except.ok r
    | none => Except.error EngineError.rangeError
  else
    Except.error EngineError.rangeError

/-- Modelled from the spec: the additive per-block checksum (spec section 4.3
names an additive checksum as the configuration-defined method). -/
def checksum (payload : List Nat) : Nat :=
  payload.foldl (fun a b => a + b) 0 % 256

/-- Modelled from the spec: BlockTransfer download (spec section 4.3): each
received block carries a payload and a checksum; a matching block is appended
to the image at its offset, and any mismatch fails the whole operation with
IntegrityError, so no partial image is ever produced. -/
def downloadBlocks : List (List Nat × Nat) → Except EngineError (List Nat)
  | [] => Except.ok []
  | (payload, ck) :: rest =>
    if checksum payload = ck then
      match downloadBlocks rest with
      | Except.ok img => Except.ok (payload ++ img)
      | Except.error e => Except.error e
    else
      Except.error EngineError.integrityError

/-- Modelled from the spec: BlockTransfer upload of one encoded channel slice
(spec sections 4.3 and 4.5): the record is encoded first, and only a
successful encode sends block plus checksum to the transport; the second
component is the byte trace that reached the transport layer. -/
def uploadChannel (p : ParameterSet) (index : Nat) (r : ChannelRecord) :
    Except EngineError Unit × List Nat :=
  match ChannelCodec.encode p index r with
  | Except.error e => (Except.error e, [])
  | Except.ok slice => (Except.ok (), slice ++ [checksum slice])

/-- Modelled from the spec: the HandshakeNegotiator send step (spec section
4.2): in Idle the negotiator sends ParameterSet magic and advances to
MagicSent; no other state sends the magic. -/
def handshakeSend (p : ParameterSet) : HandshakeState → List Nat × HandshakeState
  | HandshakeState.Idle => (p._magic, HandshakeState.MagicSent)
  | s => ([], s)

/-- Modelled from the spec: the HandshakeNegotiator receive step (spec section
4.2): after the magic, a response matching some entry of the phase-1
fingerprint list advances to Authenticated1, any other response fails with
IdentificationError; after Authenticated1, the phase-2 response is compared
against the second fingerprint list the same way; every other state,
Failed included, is left unchanged. -/
def receiveFingerprint (p : ParameterSet) (s : HandshakeState)
    (resp : List Nat) : HandshakeState :=
  match s with
  | HandshakeState.MagicSent =>
    if resp ∈ p._fingerprint then HandshakeState.Authenticated1
    else HandshakeState.Failed EngineError.identificationError
  | HandshakeState.Authenticated1 =>
    if resp ∈ p._fingerprint2 then HandshakeState.Authenticated2
    else HandshakeState.Failed EngineError.identificationError
  | s => s

/-- BlockTransfer is permitted only in the Authenticated2 state (spec
section 4.2, step 4). -/
def allowsBlockTransfer : HandshakeState → Bool
  | HandshakeState.Authenticated2 => true
  | _ => false

/-- Modelled from the spec: the handshake state reached from Idle after
sending the magic and processing the two fingerprint responses. -/
def finalState (p : ParameterSet) (r1 r2 : List Nat) : HandshakeState :=
  receiveFingerprint p
    (receiveFingerprint p (handshakeSend p HandshakeState.Idle).2 r1) r2

/-- Modelled from the spec: a whole download session (spec section 2 control
flow): handshake first, and BlockTransfer runs only when the final handshake
state permits it; otherwise the session surfaces the handshake failure and
the blocks are never touched. -/
def runSession (p : ParameterSet) (r1 r2 : List Nat)
    (blocks : List (List Nat × Nat)) : Except EngineError (List Nat) :=
  if allowsBlockTransfer (finalState p r1 r2) then
    downloadBlocks blocks
  else
    match finalState p r1 r2 with
    | HandshakeState.Failed e => Except.error e
    | _ => Except.error EngineError.identificationError

/-- Claim C7: the handshake for this model begins in Idle by sending the
ParameterSet magic, which is exactly the bytes of the string PROGRAMBT80U,
and the phase-1 fingerprint list accepts exactly the 8-byte sequence
01 36 01 80 04 00 05 20. -/
theorem rt880_magic_and_fingerprint :
    RT880._magic =
      [0x50, 0x52, 0x4F, 0x47, 0x52, 0x41, 0x4D, 0x42, 0x54, 0x38, 0x30,
       0x55] ∧
    RT880._magic = strBytes "PROGRAMBT80U" ∧
    RT880._fingerprint = [[0x01, 0x36, 0x01, 0x80, 0x04, 0x00, 0x05, 0x20]] ∧
    handshakeSend RT880 HandshakeState.Idle =
      (RT880._magic, HandshakeState.MagicSent) := by
  refine ⟨by decide, rfl, rfl, rfl⟩

/-- Claim C9: RT880 and iRadioUV98 share every piece of engine configuration,
magic, fingerprints, channel upper bound, memory parameters, power levels,
valid bands, feature flags and prompts, differing only in VENDOR and MODEL;
consequently the handshake and the channel codec behave identically for the
two models. -/
theorem models_share_engine_config :
    iRadioUV98._upper = RT880._upper ∧
    iRadioUV98._mem_params = RT880._mem_params ∧
    iRadioUV98._magic = RT880._magic ∧
    iRadioUV98._fingerprint = RT880._fingerprint ∧
    iRadioUV98._fingerprint2 = RT880._fingerprint2 ∧
    iRadioUV98.POWER_LEVELS = RT880.POWER_LEVELS ∧
    iRadioUV98.VALID_BANDS = RT880.VALID_BANDS ∧
    iRadioUV98._has_bt_denoise = RT880._has_bt_denoise ∧
    iRadioUV98._has_am_per_channel = RT880._has_am_per_channel ∧
    iRadioUV98._has_am_switch = RT880._has_am_switch ∧
    iRadioUV98._has_single_mode = RT880._has_single_mode ∧
    iRadioUV98.prompts = RT880.prompts ∧
    iRadioUV98.VENDOR ≠ RT880.VENDOR ∧
    iRadioUV98.MODEL ≠ RT880.MODEL ∧
    (∀ r1 r2 : List Nat, finalState iRadioUV98 r1 r2 = finalState RT880 r1 r2) ∧
    (∀ (index : Nat) (r : ChannelRecord),
      ChannelCodec.encode iRadioUV98 index r =
        ChannelCodec.encode RT880 index r) ∧
    (∀ (img : List Nat) (index : Nat),
      ChannelCodec.decode iRadioUV98 img index =
        ChannelCodec.decode RT880 img index) := by
  refine ⟨rfl, rfl, rfl, rfl, rfl, rfl, rfl, rfl, rfl, rfl, rfl, rfl,
    by decide, by decide, fun r1 r2 => rfl, fun index r => rfl,
    fun img index => rfl⟩

/-- Claim C10: for both registered models, exactly one of the two AM feature
flags is set: the global AM switch is the negation of per-channel AM, with
per-channel AM enabled and the global switch disabled. -/
theorem am_flags_mutually_exclusive :
    RT880._has_am_switch = !RT880._has_am_per_channel ∧
    RT880._has_am_per_channel = true ∧
    RT880._has_am_switch = false ∧
    iRadioUV98._has_am_switch = !iRadioUV98._has_am_per_channel ∧
    iRadioUV98._has_am_per_channel = true ∧
    iRadioUV98._has_am_switch = false ∧
    xor RT880._has_am_per_channel RT880._has_am_switch = true ∧
    xor iRadioUV98._has_am_per_channel iRadioUV98._has_am_switch = true := by
  decide

/-- Claim C6: ChannelCodec locates a channel record at byte offset index
times record width plus the base offset of the channel range; with 8 bytes
per record starting at 0x1000, decoding channel index 0 reads exactly the
bytes at offsets 0x1000 up to 0x1008, and encoding channel index 999 fails
with RangeError. -/
theorem channel_record_layout :
    (∀ index : Nat, channelOffset index = index * 8 + 0x1000) ∧
    channelOffset 0 = 0x1000 ∧
    (∀ img : List Nat, readSlice img 0 = (img.drop 0x1000).take 8) ∧
    (∀ r : ChannelRecord,
      ChannelCodec.encode RT880 999 r =
        Except.error EngineError.rangeError) := by
  refine ⟨fun index => rfl, rfl, fun img => rfl, fun r => ?_⟩
  simp [ChannelCodec.encode, RT880]

/-- Claim C2: channel indices use exclusive-upper-bound semantics: for any
record the validator accepts, encoding at index 999, the configured upper
bound of this model, fails with RangeError, while index 998 succeeds. -/
theorem encode_index_exclusive_upper_bound (r : ChannelRecord)
    (hval : recordValid RT880 r = true) :
    ChannelCodec.encode RT880 999 r = Except.error EngineError.rangeError ∧
    ChannelCodec.encode RT880 998 r =
      Except.ok (ChannelCodec.encodeRecord r) ∧
    RT880._upper = 999 := by
  refine ⟨?_, ?_, rfl⟩
  · simp [ChannelCodec.encode, RT880]
  · simp [ChannelCodec.encode, hval, show (998 : Nat) < RT880._upper by decide]

/-- Witness for C2 at a concrete populated record with an in-band frequency
of 446 MHz, FM mode and the first power level. -/
theorem encode_index_exclusive_upper_bound_witness :
    ChannelCodec.encode RT880 999
        (ChannelRecord.Populated 446000000 0 0 0 0 0) =
      Except.error EngineError.rangeError ∧
    ChannelCodec.encode RT880 998
        (ChannelRecord.Populated 446000000 0 0 0 0 0) =
      Except.ok (ChannelCodec.encodeRecord
        (ChannelRecord.Populated 446000000 0 0 0 0 0)) ∧
    RT880._upper = 999 :=
  encode_index_exclusive_upper_bound
    (ChannelRecord.Populated 446000000 0 0 0 0 0) (by decide)

/-- Claim C5: frequency validation is permissive on read and strict on write:
a frequency outside the single configured band from 18000000 Hz to
1000000000 Hz makes encode fail with ValidationError at any in-range index,
while the frequency decoder reports the same value as-is with the warning
flag set. -/
theorem freq_strict_write_permissive_read
    (f m pw rs t fl index : Nat) (hidx : index < RT880._upper)
    (hout : f < 18000000 ∨ 1000000000 < f) :
    ChannelCodec.encode RT880 index (ChannelRecord.Populated f m pw rs t fl) =
      Except.error EngineError.validationError ∧
    decodeFreq RT880 f = (f, true) := by
  have hband : inSomeBand RT880.VALID_BANDS f = false := by
    simp only [inSomeBand, RT880, List.any_cons, List.any_nil,
      Bool.or_false, decide_eq_false_iff_not]
    omega
  constructor
  · simp [ChannelCodec.encode, hidx, recordValid, hband]
  · simp [decodeFreq, hband]

/-- Witness for C5 at frequency 17999999 Hz, one below the band floor,
channel index 0. -/
theorem freq_strict_write_permissive_read_witness :
    ChannelCodec.encode RT880 0
        (ChannelRecord.Populated 17999999 0 0 0 0 0) =
      Except.error EngineError.validationError ∧
    decodeFreq RT880 17999999 = (17999999, true) :=
  freq_strict_write_permissive_read 17999999 0 0 0 0 0 0 (by decide)
    (Or.inl (by decide))

/-- Claim C8: validation happens before any write: when the validator rejects
a record at an in-range index, the upload pipeline fails with
ValidationError and the byte trace that reached the transport layer is
empty. -/
theorem validate_before_any_write (index : Nat) (r : ChannelRecord)
    (hidx : index < RT880._upper) (hbad : recordValid RT880 r = false) :
    uploadChannel RT880 index r =
      (Except.error EngineError.validationError, []) := by
  simp [uploadChannel, ChannelCodec.encode, hidx, hbad]

/-- Witness for C8 at channel index 0 with a record whose frequency 0 Hz lies
outside every valid band. -/
theorem validate_before_any_write_witness :
    uploadChannel RT880 0 (ChannelRecord.Populated 0 0 0 0 0 0) =
      (Except.error EngineError.validationError, []) :=
  validate_before_any_write 0 (ChannelRecord.Populated 0 0 0 0 0 0)
    (by decide) (by decide)

/-- Claim C3: a checksum mismatch on any block fails the whole download with
IntegrityError, and the caller never receives an image, not even a partial
one. -/
theorem download_all_or_nothing (bs : List (List Nat × Nat))
    (payload : List Nat) (ck : Nat) (hmem : (payload, ck) ∈ bs)
    (hbad : checksum payload ≠ ck) :
    downloadBlocks bs = Except.error EngineError.integrityError ∧
    ∀ img : List Nat, downloadBlocks bs ≠ Except.ok img := by
  suffices h : downloadBlocks bs = Except.error EngineError.integrityError by
    refine ⟨h, ?_⟩
    intro img
    rw [h]
    simp
  induction bs with
  | nil => cases hmem
  | cons hd tl ih =>
    obtain ⟨p, c⟩ := hd
    rcases List.mem_cons.mp hmem with heq | htl
    · obtain ⟨rfl, rfl⟩ : payload = p ∧ ck = c := by
        simpa using heq
      rw [downloadBlocks, if_neg hbad]
    · by_cases hck : checksum p = c
      · rw [downloadBlocks, if_pos hck, ih htl]
      · rw [downloadBlocks, if_neg hck]

/-- Witness for C3: two blocks where the second block's received checksum 9
disagrees with the additive checksum 10 of its payload, as if one byte had
been corrupted before the comparison. -/
theorem download_all_or_nothing_witness :
    downloadBlocks [([1, 2, 3], 6), ([5, 5], 9)] =
      Except.error EngineError.integrityError :=
  (download_all_or_nothing [([1, 2, 3], 6), ([5, 5], 9)] [5, 5] 9
    (by decide) (by decide)).1

/-- Claim C4: a phase-1 response matching no entry of the fingerprint list
drives the negotiator to Failed with IdentificationError, the whole session
surfaces that error without touching any block, and only the Authenticated2
state permits BlockTransfer. -/
theorem handshake_mismatch_blocks_transfer (r1 r2 : List Nat)
    (h : r1 ∉ RT880._fingerprint) :
    finalState RT880 r1 r2 =
      HandshakeState.Failed EngineError.identificationError ∧
    allowsBlockTransfer (finalState RT880 r1 r2) = false ∧
    (∀ blocks : List (List Nat × Nat),
      runSession RT880 r1 r2 blocks =
        Except.error EngineError.identificationError) ∧
    (∀ s : HandshakeState,
      allowsBlockTransfer s = true ↔ s = HandshakeState.Authenticated2) := by
  have hfs : finalState RT880 r1 r2 =
      HandshakeState.Failed EngineError.identificationError := by
    simp [finalState, handshakeSend, receiveFingerprint, h]
  refine ⟨hfs, by rw [hfs]; rfl, ?_, ?_⟩
  · intro blocks
    rw [runSession, hfs]
    rfl
  · intro s
    cases s <;> simp [allowsBlockTransfer]

/-- Witness for C4 at the empty response, which matches no fingerprint
entry. -/
theorem handshake_mismatch_blocks_transfer_witness :
    finalState RT880 [] [] =
      HandshakeState.Failed EngineError.identificationError :=
  (handshake_mismatch_blocks_transfer [] [] (by decide)).1

/-- Claim C1: codec round-trip: every non-blank channel slice of the record
width, with each byte below 256, decodes to a record whose re-encoding is
byte-identical to the original slice. -/
theorem codec_roundtrip (bs : List Nat) (hlen : bs.length = 8)
    (hbytes : ∀ b ∈ bs, b < 256) (hnb : isBlank bs = false) :
    (ChannelCodec.decodeSlice bs).map ChannelCodec.encodeRecord = some bs := by
  rcases bs with _ | ⟨b0, _ | ⟨b1, _ | ⟨b2, _ | ⟨b3, _ | ⟨b4, _ | ⟨b5,
    _ | ⟨b6, _ | ⟨b7, _ | ⟨b8, t⟩⟩⟩⟩⟩⟩⟩⟩⟩
  all_goals try (exfalso; simp at hlen; done)
  have h0 : b0 < 256 := hbytes b0 (by simp)
  have h1 : b1 < 256 := hbytes b1 (by simp)
  have h2 : b2 < 256 := hbytes b2 (by simp)
  have h3 : b3 < 256 := hbytes b3 (by simp)
  have h4 : b4 < 256 := hbytes b4 (by simp)
  have h5 : b5 < 256 := hbytes b5 (by simp)
  have h6 : b6 < 256 := hbytes b6 (by simp)
  have h7 : b7 < 256 := hbytes b7 (by simp)
  simp only [ChannelCodec.decodeSlice, hnb, Bool.false_eq_true, if_false,
    Option.map_some', ChannelCodec.encodeRecord, Option.some.injEq,
    List.cons.injEq, and_true]
  omega

/-- Witness for C1 at the concrete non-blank slice 80 6B 95 1A 00 00 00 00,
whose little-endian frequency field reads 446000000 Hz. -/
theorem codec_roundtrip_witness :
    (ChannelCodec.decodeSlice
        [128, 107, 149, 26, 0, 0, 0, 0]).map ChannelCodec.encodeRecord =
      some [128, 107, 149, 26, 0, 0, 0, 0] :=
  codec_roundtrip [128, 107, 149, 26, 0, 0, 0, 0] (by decide) (by decide)
    (by decide)
